import Mathlib

/-!
Verification of the Aerial Nest emergency-access and audit subsystem.

The repository stores its relational schema (tables `emergency_access_requests`,
`emergency_access_documents`, `access_logs`, `trusted_contacts`, `documents`,
`document_shares`) alongside a JS API server (`src/api/src/index.js`).  The
workflow operations (`createRequest`, `decide`, `checkAccess`,
`AccessGate.authorize`) are anticipated by the schema but not implemented in
the source; they are modelled here from the specification, while the schema's
column types, enumerations and `ON DELETE` clauses, and the implemented HTTP
handlers (`routeRequest`, `handleRegister`, `handleGetDocuments`,
`verifyToken`, `lambdaHandler`, `startLocalServer`) are embedded directly from
the source.
-/

namespace AerialNest

/-- `status` column of `emergency_access_requests`:
values 'pending', 'approved', 'denied', 'expired' (schema comment). -/
inductive Status
  | pending
  | approved
  | denied
  | expired
deriving DecidableEq, Repr

/-- `access_type` / `granted_access_type` columns: 'view' or 'download'. -/
inductive AccessType
  | view
  | download
deriving DecidableEq, Repr

/-- `emergency_type` column: 'medical', 'financial', 'general'. -/
inductive EmergencyType
  | medical
  | financial
  | general
deriving DecidableEq, Repr

/-- Row of `trusted_contacts` (schema). -/
structure TrustedContact where
  id : Nat
  user_id : Nat
  contact_name : String
  contact_email : String
  can_access_all : Bool
  emergency_contact : Bool
deriving DecidableEq, Repr

/-- Row of `documents` (schema); only the columns the workflow reads. -/
structure Document where
  id : Nat
  user_id : Nat
  title : String
  is_active : Bool
deriving DecidableEq, Repr

/-- Row of `document_shares` (schema). -/
structure DocumentShare where
  id : Nat
  document_id : Nat
  user_id : Nat
  trusted_contact_id : Nat
  access_type : AccessType
deriving DecidableEq, Repr

/-- Row of `emergency_access_requests` (schema). -/
structure EmergencyAccessRequest where
  id : Nat
  user_id : Nat
  trusted_contact_id : Nat
  requested_by_email : String
  requested_by_name : String
  request_reason : String
  emergency_type : Option EmergencyType
  requested_at : Nat
  status : Status
  approved_at : Option Nat
  expires_at : Nat
  denial_reason : Option String
deriving DecidableEq, Repr

/-- Row of `emergency_access_documents` (schema). -/
structure EmergencyAccessDocument where
  id : Nat
  emergency_request_id : Nat
  document_id : Nat
  granted_access_type : AccessType
  accessed_at : Option Nat
deriving DecidableEq, Repr

/-- `action` column of `access_logs`:
'viewed', 'downloaded', 'shared', 'emergency_accessed', 'uploaded'. -/
inductive LogAction
  | viewed
  | downloaded
  | shared
  | emergency_accessed
  | uploaded
deriving DecidableEq, Repr

/-- `access_context` column of `access_logs`: 'normal', 'emergency', 'shared'. -/
inductive AccessContext
  | normal
  | emergency
  | shared
deriving DecidableEq, Repr

/-- Row of `access_logs` (schema); nullable foreign keys are `Option`. -/
structure AccessLog where
  id : Nat
  user_id : Option Nat
  accessed_by_user_id : Option Nat
  accessed_by_email : Option String
  accessed_by_name : Option String
  document_id : Option Nat
  action : LogAction
  access_context : Option AccessContext
  emergency_request_id : Option Nat
deriving DecidableEq, Repr

/-- The persisted state of the subsystem: one list per schema table, plus the
AUTOINCREMENT counters for the rows the workflow itself inserts. -/
structure WorkflowState where
  contacts : List TrustedContact
  documents : List Document
  shares : List DocumentShare
  requests : List EmergencyAccessRequest
  granted_documents : List EmergencyAccessDocument
  access_logs : List AccessLog
  nextRequestId : Nat
  nextGrantId : Nat
  nextLogId : Nat
deriving DecidableEq, Repr

/-- Reason codes of a denied `checkAccess` (spec section 4.1). -/
inductive DenyReason
  | not_approved
  | expired
  | not_in_grant
deriving DecidableEq, Repr

/-- Result of `checkAccess`: granted, or denied with a reason code. -/
inductive AccessDecision
  | granted
  | denied (reason : DenyReason)
deriving DecidableEq, Repr

/-- Lookup of an emergency request row by primary key. -/
def findRequest (st : WorkflowState) (rid : Nat) : Option EmergencyAccessRequest :=
  st.requests.find? (fun r => r.id == rid)

/-- Lookup of a document row by primary key. -/
def findDocument (st : WorkflowState) (did : Nat) : Option Document :=
  st.documents.find? (fun d => d.id == did)

/-- Does an `emergency_access_documents` row link request `rid` to document
`did`? -/
def hasGrantRow (st : WorkflowState) (rid did : Nat) : Bool :=
  st.granted_documents.any (fun e => e.emergency_request_id == rid && e.document_id == did)

/-- Modelled from the spec: `checkAccess(requestId, documentId, now)` of
EmergencyAccessWorkflow, which the source repository declares only through its
schema.  Pure read: granted iff the request's status is `approved`, `now` is
strictly before `expires_at`, and a matching `emergency_access_documents` row
exists; otherwise denied with reason `not_approved`, `expired`, or
`not_in_grant`.  A request id with no row is treated as not approved, since
the spec gives `checkAccess` no error path. -/
def checkAccess (st : WorkflowState) (rid did : Nat) (now : Nat) : AccessDecision :=
  match findRequest st rid with
  | none => .denied .not_approved
  | some r =>
    if r.status = .approved then
      if now < r.expires_at then
        if hasGrantRow st rid did then .granted else .denied .not_in_grant
      else .denied .expired
    else .denied .not_approved

/-- Error kinds of the workflow (spec section 7). -/
inductive WorkflowError
  | validationError
  | authorizationError
  | stateError
  | notFoundError
deriving DecidableEq, Repr

/-- The two decisions of `decide` (spec section 4.1). -/
inductive Decision
  | approve
  | deny
deriving DecidableEq, Repr

/-- Modelled from the spec: `createRequest` of EmergencyAccessWorkflow, which
the source repository declares only through its schema.  Fails with
`ValidationError` when `contactId` does not reference a trusted contact
belonging to `ownerId`; otherwise inserts a `pending` request with
`expires_at = now + ttl`.  Per the spec's scenario, a request for a contact
with `emergency_contact = false` is still created; eligibility is enforced at
approval time. -/
def createRequest (st : WorkflowState) (ownerId contactId : Nat)
    (requesterName requesterEmail reason : String) (etype : Option EmergencyType)
    (ttl now : Nat) : Except WorkflowError WorkflowState :=
  if st.contacts.any (fun c => c.id == contactId && c.user_id == ownerId) then
    .ok { st with
      requests := st.requests ++
        [{ id := st.nextRequestId, user_id := ownerId, trusted_contact_id := contactId,
           requested_by_email := requesterEmail, requested_by_name := requesterName,
           request_reason := reason, emergency_type := etype, requested_at := now,
           status := .pending, approved_at := none, expires_at := now + ttl,
           denial_reason := none }],
      nextRequestId := st.nextRequestId + 1 }
  else .error .validationError

/-- The conditional row update of a decision, guarded by `status = 'pending'`
— the spec's prescribed conditional-update serialization of concurrent
decisions. -/
def decidedUpdate (rid : Nat) (upd : EmergencyAccessRequest → EmergencyAccessRequest)
    (q : EmergencyAccessRequest) : EmergencyAccessRequest :=
  if q.id == rid && q.status == Status.pending then upd q else q

/-- The column assignment of a denial. -/
def denyUpdate (denialReason : Option String) (q : EmergencyAccessRequest) :
    EmergencyAccessRequest :=
  { q with status := .denied, denial_reason := denialReason }

/-- The column assignment of an approval. -/
def approveUpdate (now : Nat) (q : EmergencyAccessRequest) : EmergencyAccessRequest :=
  { q with status := .approved, approved_at := some now }

/-- Modelled from the spec: `decide(requestId, deciderId, decision,
grantedDocumentIds, denialReason)` of EmergencyAccessWorkflow, which the
source repository declares only through its schema.  Checks, in the spec's
order: the request exists (`NotFoundError`), the decider is the owning user
(`AuthorizationError`; the admin-override policy is an open question of the
spec and is not modelled), the request is still `pending` and not past its own
`expires_at` (`StateError`).  On approve: `ValidationError` when the granted
document list is empty, when a granted document does not belong to the owner,
or when the contact is not marked `emergency_contact`; otherwise the status
becomes `approved` and one `emergency_access_documents` row is inserted per
granted id, atomically.  On deny the status becomes `denied` and the denial
reason is stored. -/
def decideRequest (st : WorkflowState) (rid deciderId : Nat) (d : Decision)
    (grantedDocumentIds : List Nat) (denialReason : Option String) (now : Nat) :
    Except WorkflowError WorkflowState :=
  match findRequest st rid with
  | none => .error .notFoundError
  | some r =>
    if deciderId ≠ r.user_id then .error .authorizationError
    else if r.status ≠ .pending then .error .stateError
    else if r.expires_at ≤ now then .error .stateError
    else match d with
      | .deny =>
        .ok { st with
          requests := st.requests.map (decidedUpdate rid (denyUpdate denialReason)) }
      | .approve =>
        if grantedDocumentIds = [] then .error .validationError
        else if ¬ grantedDocumentIds.all (fun did =>
            st.documents.any (fun doc => doc.id == did && doc.user_id == r.user_id)) then
          .error .validationError
        else if ¬ st.contacts.any (fun c =>
            c.id == r.trusted_contact_id && c.emergency_contact) then
          .error .validationError
        else
          .ok { st with
            requests := st.requests.map (decidedUpdate rid (approveUpdate now)),
            granted_documents := st.granted_documents ++
              grantedDocumentIds.enum.map (fun p =>
                { id := st.nextGrantId + p.1, emergency_request_id := rid,
                  document_id := p.2, granted_access_type := .view,
                  accessed_at := none }),
            nextGrantId := st.nextGrantId + grantedDocumentIds.length }

/-- The actor of an access attempt: a registered user id, a trusted-contact
identity, or a bare name and email (spec section 6). -/
structure Actor where
  userId : Option Nat
  contactId : Option Nat
  email : Option String
  name : Option String
deriving DecidableEq, Repr

/-- Result of `AccessGate.authorize`: granted with a context, or denied. -/
inductive AuthResult
  | granted (ctx : AccessContext)
  | denied
deriving DecidableEq, Repr

/-- Does a granted access type cover the requested action?  `download` covers
both actions, `view` covers only `view`. -/
def covers (granted action : AccessType) : Bool :=
  match granted, action with
  | .download, _ => true
  | .view, .view => true
  | .view, .download => false

/-- Does a standing `document_shares` row link the actor (through their
trusted-contact identity) to the document with an access type covering the
action? -/
def shareExists (st : WorkflowState) (actor : Actor) (did : Nat)
    (action : AccessType) : Bool :=
  match actor.contactId with
  | some cid => st.shares.any (fun s =>
      s.document_id == did && s.trusted_contact_id == cid && covers s.access_type action)
  | none => false

/-- Append one `access_logs` row, advancing the AUTOINCREMENT counter. -/
def appendLog (st : WorkflowState) (actor : Actor) (ownerId : Option Nat)
    (did : Option Nat) (action : LogAction) (ctx : Option AccessContext)
    (erid : Option Nat) : WorkflowState :=
  { st with
    access_logs := st.access_logs ++
      [{ id := st.nextLogId, user_id := ownerId, accessed_by_user_id := actor.userId,
         accessed_by_email := actor.email, accessed_by_name := actor.name,
         document_id := did, action := action, access_context := ctx,
         emergency_request_id := erid }],
    nextLogId := st.nextLogId + 1 }

/-- Set `accessed_at := now` on the `emergency_access_documents` rows of the
exercised grant that do not carry a first-access timestamp yet. -/
def markAccessed (st : WorkflowState) (rid did now : Nat) : WorkflowState :=
  { st with
    granted_documents := st.granted_documents.map (fun e =>
      if e.emergency_request_id == rid && e.document_id == did && e.accessed_at.isNone then
        { e with accessed_at := some now }
      else e) }

/-- The `access_logs.action` value of an authorization attempt. -/
def logAction (ctx : Option AccessContext) (action : AccessType) : LogAction :=
  match ctx with
  | some .emergency => .emergency_accessed
  | _ => match action with
    | .view => .viewed
    | .download => .downloaded

/-- Modelled from the spec: `AccessGate.authorize(actor, documentId, action)`,
which the source repository declares only through its schema.  A missing or
inactive document is never authorizable (spec section 6); otherwise the
resolution order is owner, standing share, active emergency grant (which also
stamps `accessed_at` on first exercise), denial.  Every call, granted or
denied, appends exactly one `access_logs` row. -/
def authorize (st : WorkflowState) (actor : Actor) (did : Nat)
    (action : AccessType) (erid : Option Nat) (now : Nat) :
    AuthResult × WorkflowState :=
  match findDocument st did with
  | none =>
    (.denied, appendLog st actor none (some did) (logAction none action) none erid)
  | some doc =>
    if doc.is_active = false then
      (.denied, appendLog st actor (some doc.user_id) (some did)
        (logAction none action) none erid)
    else if actor.userId = some doc.user_id then
      (.granted .normal, appendLog st actor (some doc.user_id) (some did)
        (logAction (some .normal) action) (some .normal) erid)
    else if shareExists st actor did action then
      (.granted .shared, appendLog st actor (some doc.user_id) (some did)
        (logAction (some .shared) action) (some .shared) erid)
    else match erid with
      | some rid =>
        if checkAccess st rid did now = .granted then
          (.granted .emergency,
            appendLog (markAccessed st rid did now) actor (some doc.user_id)
              (some did) (logAction (some .emergency) action) (some .emergency)
              (some rid))
        else
          (.denied, appendLog st actor (some doc.user_id) (some did)
            (logAction none action) none (some rid))
      | none =>
        (.denied, appendLog st actor (some doc.user_id) (some did)
          (logAction none action) none none)

/-- The ids of the `emergency_access_requests` rows that deleting contact
`cid` cascade-deletes. -/
def deadRequestIds (st : WorkflowState) (cid : Nat) : List Nat :=
  (st.requests.filter (fun r => r.trusted_contact_id == cid)).map (fun r => r.id)

/-- `ON DELETE SET NULL` on `access_logs.emergency_request_id`: a log row
referencing a deleted request keeps everything but that reference. -/
def nullifyDeadRef (deadReqIds : List Nat) (L : AccessLog) : AccessLog :=
  match L.emergency_request_id with
  | some rid =>
    if deadReqIds.contains rid then { L with emergency_request_id := none } else L
  | none => L

/-- Deleting a `trusted_contacts` row under the schema's foreign-key clauses:
`document_shares` and `emergency_access_requests` rows referencing the contact
are cascade-deleted; `emergency_access_documents` rows of the deleted requests
cascade in turn; `access_logs.emergency_request_id` is set to null for the
deleted requests (`ON DELETE SET NULL`) — log rows are never removed. -/
def deleteTrustedContact (st : WorkflowState) (cid : Nat) : WorkflowState :=
  { st with
    contacts := st.contacts.filter (fun c => !(c.id == cid)),
    shares := st.shares.filter (fun s => !(s.trusted_contact_id == cid)),
    requests := st.requests.filter (fun r => !(r.trusted_contact_id == cid)),
    granted_documents := st.granted_documents.filter
      (fun e => !((deadRequestIds st cid).contains e.emergency_request_id)),
    access_logs := st.access_logs.map (nullifyDeadRef (deadRequestIds st cid)) }

/-- The operations that mutate the persisted state; CRUD insertions of the
surrounding application are included so that reachable states are not
trivially empty. -/
inductive Op
  | addContact (c : TrustedContact)
  | addDocument (d : Document)
  | addShare (s : DocumentShare)
  | createOp (ownerId contactId : Nat) (requesterName requesterEmail reason : String)
      (etype : Option EmergencyType) (ttl now : Nat)
  | decideOp (rid deciderId : Nat) (d : Decision) (grantedDocumentIds : List Nat)
      (denialReason : Option String) (now : Nat)
  | authorizeOp (actor : Actor) (did : Nat) (action : AccessType)
      (erid : Option Nat) (now : Nat)
  | deleteContact (cid : Nat)
deriving Repr

/-- One step of the system; a failed workflow call leaves the state unchanged
(the spec's transactional requirement). -/
def applyOp (st : WorkflowState) (op : Op) : WorkflowState :=
  match op with
  | .addContact c => { st with contacts := st.contacts ++ [c] }
  | .addDocument d => { st with documents := st.documents ++ [d] }
  | .addShare s => { st with shares := st.shares ++ [s] }
  | .createOp ownerId contactId rn re reason etype ttl now =>
    match createRequest st ownerId contactId rn re reason etype ttl now with
    | .ok st2 => st2
    | .error _ => st
  | .decideOp rid deciderId d docIds denialReason now =>
    match decideRequest st rid deciderId d docIds denialReason now with
    | .ok st2 => st2
    | .error _ => st
  | .authorizeOp actor did action erid now => (authorize st actor did action erid now).2
  | .deleteContact cid => deleteTrustedContact st cid

/-- The empty initial state. -/
def initState : WorkflowState :=
  { contacts := [], documents := [], shares := [], requests := [],
    granted_documents := [], access_logs := [],
    nextRequestId := 1, nextGrantId := 1, nextLogId := 1 }

/-- Run a sequence of operations from the initial state. -/
def runOps (ops : List Op) : WorkflowState :=
  ops.foldl applyOp initState

/-- A state is reachable when some operation sequence produces it. -/
def Reachable (st : WorkflowState) : Prop :=
  ∃ ops : List Op, runOps ops = st

/-- `find?` by id commutes with mapping an id-preserving row update. -/
lemma find?_req_map (l : List EmergencyAccessRequest) (rid : Nat)
    (f : EmergencyAccessRequest → EmergencyAccessRequest)
    (hf : ∀ q, (f q).id = q.id) :
    (l.map f).find? (fun q => q.id == rid) = (l.find? (fun q => q.id == rid)).map f := by
  rw [List.find?_map]
  have h : ((fun q : EmergencyAccessRequest => q.id == rid) ∘ f) =
      (fun q : EmergencyAccessRequest => q.id == rid) := by
    funext q; simp [Function.comp, hf q]
  rw [h]

/-- The conditional decision update preserves row ids. -/
lemma decidedUpdate_id (rid : Nat) (upd : EmergencyAccessRequest → EmergencyAccessRequest)
    (hid : ∀ q, (upd q).id = q.id) (q : EmergencyAccessRequest) :
    (decidedUpdate rid upd q).id = q.id := by
  unfold decidedUpdate
  split
  · exact hid q
  · rfl

/-- Mapping an id-preserving conditional update leaves the id column of the
request table unchanged. -/
lemma ids_map_decidedUpdate (rid : Nat)
    (upd : EmergencyAccessRequest → EmergencyAccessRequest)
    (hid : ∀ q, (upd q).id = q.id) (l : List EmergencyAccessRequest) :
    (l.map (decidedUpdate rid upd)).map (fun r => r.id) = l.map (fun r => r.id) := by
  rw [List.map_map]
  exact List.map_congr_left (fun q _ => decidedUpdate_id rid upd hid q)

/-- Anatomy of a successful `decide` call: the request exists, the decider is
the owner, the request was pending and unexpired, and the resulting request
table is the conditional update of the old one by an id- and owner-preserving
row update that moves a pending row to `approved` or `denied`. -/
lemma decideRequest_ok_spec (st : WorkflowState) (rid deciderId : Nat) (d : Decision)
    (docIds : List Nat) (reason : Option String) (now : Nat) (st2 : WorkflowState)
    (h : decideRequest st rid deciderId d docIds reason now = .ok st2) :
    ∃ r upd, findRequest st rid = some r ∧ deciderId = r.user_id ∧
      r.status = .pending ∧ now < r.expires_at ∧
      (∀ q, (upd q).id = q.id) ∧ (∀ q, (upd q).user_id = q.user_id) ∧
      (∀ q, (upd q).status = Status.approved ∨ (upd q).status = Status.denied) ∧
      st2.requests = st.requests.map (decidedUpdate rid upd) := by
  unfold decideRequest at h
  cases hf : findRequest st rid with
  | none => rw [hf] at h; cases h
  | some r =>
    rw [hf] at h
    dsimp only at h
    by_cases h1 : deciderId ≠ r.user_id
    · rw [if_pos h1] at h; cases h
    · rw [if_neg h1] at h
      by_cases h2 : r.status ≠ Status.pending
      · rw [if_pos h2] at h; cases h
      · rw [if_neg h2] at h
        by_cases h3 : r.expires_at ≤ now
        · rw [if_pos h3] at h; cases h
        · rw [if_neg h3] at h
          cases d with
          | deny =>
            injection h with h4
            refine ⟨r, denyUpdate reason,
              rfl, not_not.mp h1, not_not.mp h2, Nat.lt_of_not_le h3,
              fun q => rfl, fun q => rfl, fun q => Or.inr rfl, ?_⟩
            rw [← h4]
          | approve =>
            by_cases h4 : docIds = []
            · rw [if_pos h4] at h; cases h
            · rw [if_neg h4] at h
              by_cases h5 : ¬ docIds.all (fun did =>
                  st.documents.any (fun doc => doc.id == did && doc.user_id == r.user_id))
              · rw [if_pos h5] at h; cases h
              · rw [if_neg h5] at h
                by_cases h6 : ¬ st.contacts.any (fun c =>
                    c.id == r.trusted_contact_id && c.emergency_contact)
                · rw [if_pos h6] at h; cases h
                · rw [if_neg h6] at h
                  injection h with h7
                  refine ⟨r, approveUpdate now,
                    rfl, not_not.mp h1, not_not.mp h2, Nat.lt_of_not_le h3,
                    fun q => rfl, fun q => rfl, fun q => Or.inl rfl, ?_⟩
                  rw [← h7]

/-- `authorize` never touches the `emergency_access_requests` table. -/
lemma authorize_requests_eq (st : WorkflowState) (actor : Actor) (did : Nat)
    (action : AccessType) (erid : Option Nat) (now : Nat) :
    (authorize st actor did action erid now).2.requests = st.requests := by
  unfold authorize
  cases hd : findDocument st did with
  | none => simp [appendLog]
  | some doc =>
    dsimp only
    by_cases h1 : doc.is_active = false
    · simp [h1, appendLog]
    · rw [if_neg h1]
      by_cases h2 : actor.userId = some doc.user_id
      · simp [h2, appendLog]
      · rw [if_neg h2]
        by_cases h3 : shareExists st actor did action
        · simp [h3, appendLog]
        · simp only [h3, Bool.false_eq_true, if_false]
          cases erid with
          | none => simp [appendLog]
          | some rid =>
            by_cases h4 : checkAccess st rid did now = .granted
            · simp [h4, appendLog, markAccessed]
            · simp [h4, appendLog]

/-- Every `authorize` call, granted or denied, appends exactly one row to
`access_logs`. -/
lemma authorize_logs_length (st : WorkflowState) (actor : Actor) (did : Nat)
    (action : AccessType) (erid : Option Nat) (now : Nat) :
    (authorize st actor did action erid now).2.access_logs.length =
      st.access_logs.length + 1 := by
  unfold authorize
  cases hd : findDocument st did with
  | none => simp [appendLog]
  | some doc =>
    dsimp only
    by_cases h1 : doc.is_active = false
    · simp [h1, appendLog]
    · rw [if_neg h1]
      by_cases h2 : actor.userId = some doc.user_id
      · simp [h2, appendLog]
      · rw [if_neg h2]
        by_cases h3 : shareExists st actor did action
        · simp [h3, appendLog]
        · simp only [h3, Bool.false_eq_true, if_false]
          cases erid with
          | none => simp [appendLog]
          | some rid =>
            by_cases h4 : checkAccess st rid did now = .granted
            · simp [h4, appendLog, markAccessed]
            · simp [h4, appendLog]

end AerialNest

namespace AerialNest

/-- C1: `checkAccess(requestId, documentId, now)` is granted iff the request
row exists with status `approved`, `now < expires_at`, and an
`emergency_access_documents` row links the request to the document; any other
outcome is a denial carrying a reason code; and for an approved request every
instant at or after `expires_at` yields `denied expired`.  `checkAccess` is a
pure function of the state, so it performs no write by construction. -/
theorem checkAccess_granted_iff (st : WorkflowState) (rid did now : Nat) :
    (checkAccess st rid did now = .granted ↔
      ∃ r, findRequest st rid = some r ∧ r.status = .approved ∧
        now < r.expires_at ∧ hasGrantRow st rid did = true) ∧
    (checkAccess st rid did now ≠ .granted →
      ∃ reason, checkAccess st rid did now = .denied reason) ∧
    (∀ r, findRequest st rid = some r → r.status = .approved →
      r.expires_at ≤ now → checkAccess st rid did now = .denied .expired) := by
  refine ⟨?_, ?_, ?_⟩
  · constructor
    · intro h
      unfold checkAccess at h
      cases hf : findRequest st rid with
      | none => rw [hf] at h; exact absurd h (by simp)
      | some r =>
        rw [hf] at h
        by_cases hs : r.status = .approved
        · by_cases ht : now < r.expires_at
          · by_cases hg : hasGrantRow st rid did
            · exact ⟨r, rfl, hs, ht, hg⟩
            · simp [hs, ht, hg] at h
          · simp [hs, ht] at h
        · simp [hs] at h
    · rintro ⟨r, hf, hs, ht, hg⟩
      unfold checkAccess
      rw [hf]
      simp [hs, ht, hg]
  · intro h
    cases hc : checkAccess st rid did now with
    | granted => exact absurd hc h
    | denied reason => exact ⟨reason, rfl⟩
  · intro r hf hs ht
    unfold checkAccess
    rw [hf]
    simp [hs, Nat.not_lt.mpr ht]

/-- Concrete state exercising `checkAccess`: one approved request past its
expiry. -/
def exCheckState : WorkflowState :=
  { contacts := [{ id := 1, user_id := 1, contact_name := "c", contact_email := "c@x",
                   can_access_all := false, emergency_contact := true }]
    documents := [{ id := 1, user_id := 1, title := "will", is_active := true }]
    shares := []
    requests := [{ id := 1, user_id := 1, trusted_contact_id := 1,
                   requested_by_email := "c@x", requested_by_name := "c",
                   request_reason := "medical", emergency_type := some .medical,
                   requested_at := 0, status := .approved, approved_at := some 1,
                   expires_at := 100, denial_reason := none }]
    granted_documents := [{ id := 1, emergency_request_id := 1, document_id := 1,
                            granted_access_type := .view, accessed_at := none }]
    access_logs := []
    nextRequestId := 2, nextGrantId := 2, nextLogId := 1 }

/-- Witness for C1: on the concrete state, the approved request is denied with
reason `expired` at an instant past `expires_at`. -/
theorem checkAccess_granted_iff_witness :
    checkAccess exCheckState 1 1 200 = .denied .expired :=
  (checkAccess_granted_iff exCheckState 1 1 200).2.2
    { id := 1, user_id := 1, trusted_contact_id := 1,
      requested_by_email := "c@x", requested_by_name := "c",
      request_reason := "medical", emergency_type := some .medical,
      requested_at := 0, status := .approved, approved_at := some 1,
      expires_at := 100, denial_reason := none }
    (by decide) rfl (by decide)

/-- C2: under every operation of the system, a persisted request row either
keeps its status, moves from `pending` to `approved` or `denied`, or is a
fresh `pending` row — no other edge among the four statuses is ever persisted;
and after a successful `decide` on a request, any second `decide` on the same
id by the same decider fails with `StateError`, so two `decide` calls yield
exactly one success and one `StateError`. -/
theorem status_transitions_and_single_decision :
    (∀ st op, ∀ q2 ∈ (applyOp st op).requests,
      (∃ q ∈ st.requests, q2.id = q.id ∧
        (q2.status = q.status ∨
          (q.status = Status.pending ∧
            (q2.status = Status.approved ∨ q2.status = Status.denied)))) ∨
      q2.status = Status.pending) ∧
    (∀ st rid deciderId d docIds reason now st2,
      decideRequest st rid deciderId d docIds reason now = .ok st2 →
      ∀ d2 docIds2 reason2 now2,
        decideRequest st2 rid deciderId d2 docIds2 reason2 now2 =
          .error .stateError) := by
  constructor
  · intro st op q2 hq2
    cases op with
    | addContact c => exact Or.inl ⟨q2, hq2, rfl, Or.inl rfl⟩
    | addDocument d => exact Or.inl ⟨q2, hq2, rfl, Or.inl rfl⟩
    | addShare s => exact Or.inl ⟨q2, hq2, rfl, Or.inl rfl⟩
    | createOp ownerId contactId rn re reason etype ttl now =>
      simp only [applyOp, createRequest] at hq2
      by_cases h : st.contacts.any (fun c => c.id == contactId && c.user_id == ownerId)
      · rw [if_pos h] at hq2
        dsimp only at hq2
        rw [List.mem_append] at hq2
        rcases hq2 with h1 | h1
        · exact Or.inl ⟨q2, h1, rfl, Or.inl rfl⟩
        · right
          rw [List.mem_singleton] at h1
          rw [h1]
      · rw [if_neg h] at hq2
        exact Or.inl ⟨q2, hq2, rfl, Or.inl rfl⟩
    | decideOp rid deciderId d docIds reason now =>
      simp only [applyOp] at hq2
      cases hdec : decideRequest st rid deciderId d docIds reason now with
      | error e =>
        rw [hdec] at hq2
        exact Or.inl ⟨q2, hq2, rfl, Or.inl rfl⟩
      | ok stB =>
        rw [hdec] at hq2
        dsimp only at hq2
        obtain ⟨r, upd, hf, hdec2, hpend, hlt, hid, huser, hstat, hreq⟩ :=
          decideRequest_ok_spec st rid deciderId d docIds reason now stB hdec
        rw [hreq] at hq2
        rw [List.mem_map] at hq2
        obtain ⟨q, hq, hq2eq⟩ := hq2
        left
        refine ⟨q, hq, ?_, ?_⟩
        · rw [← hq2eq]
          exact decidedUpdate_id rid upd hid q
        · rw [← hq2eq]
          unfold decidedUpdate
          by_cases hg : (q.id == rid && q.status == Status.pending) = true

          · rw [if_pos hg]
            right
            rw [Bool.and_eq_true] at hg
            exact ⟨by simpa using hg.2, hstat q⟩
          · rw [if_neg hg]
            exact Or.inl rfl
    | authorizeOp actor did action erid now =>
      simp only [applyOp] at hq2
      rw [authorize_requests_eq] at hq2
      exact Or.inl ⟨q2, hq2, rfl, Or.inl rfl⟩
    | deleteContact cid =>
      simp only [applyOp, deleteTrustedContact] at hq2
      rw [List.mem_filter] at hq2
      exact Or.inl ⟨q2, hq2.1, rfl, Or.inl rfl⟩
  · intro st rid deciderId d docIds reason now st2 hok d2 docIds2 reason2 now2
    obtain ⟨r, upd, hf, hdec, hpend, hlt, hid, huser, hstat, hreq⟩ :=
      decideRequest_ok_spec st rid deciderId d docIds reason now st2 hok
    have hrid : (r.id == rid) = true := by
      unfold findRequest at hf
      simpa using List.find?_some hf
    have hupdr : decidedUpdate rid upd r = upd r := by
      unfold decidedUpdate
      rw [if_pos]
      rw [Bool.and_eq_true]
      exact ⟨hrid, by simp [hpend]⟩
    have hfind2 : findRequest st2 rid = some (upd r) := by
      unfold findRequest
      rw [hreq]
      rw [find?_req_map st.requests rid _ (decidedUpdate_id rid upd hid)]
      unfold findRequest at hf
      rw [hf]
      rw [show Option.map (decidedUpdate rid upd) (some r) =
        some (decidedUpdate rid upd r) from rfl]
      rw [hupdr]
    have hauth : ¬ deciderId ≠ (upd r).user_id := by
      rw [huser r, ← hdec]
      exact fun hne => hne rfl
    have hnp : (upd r).status ≠ Status.pending := by
      rcases hstat r with h | h <;> rw [h] <;> exact fun hc => by cases hc
    unfold decideRequest
    rw [hfind2]
    dsimp only
    rw [if_neg hauth, if_pos hnp]

/-- A concrete state with one pending request for an eligible contact. -/
def exPendingState : WorkflowState :=
  { contacts := [{ id := 1, user_id := 1, contact_name := "c", contact_email := "c@x",
                   can_access_all := false, emergency_contact := true }]
    documents := [{ id := 1, user_id := 1, title := "will", is_active := true }]
    shares := []
    requests := [{ id := 1, user_id := 1, trusted_contact_id := 1,
                   requested_by_email := "c@x", requested_by_name := "c",
                   request_reason := "medical", emergency_type := some .medical,
                   requested_at := 0, status := .pending, approved_at := none,
                   expires_at := 100, denial_reason := none }]
    granted_documents := []
    access_logs := []
    nextRequestId := 2, nextGrantId := 1, nextLogId := 1 }

/-- The state after the owner approves the pending request, granting one
document. -/
def exDecidedState : WorkflowState :=
  applyOp exPendingState (.decideOp 1 1 .approve [1] none 10)

/-- Witness for C2: on the concrete state, the first `decide` succeeds and the
second on the same id fails with `StateError`. -/
theorem status_transitions_and_single_decision_witness :
    decideRequest exDecidedState 1 1 .deny [] none 20 = .error .stateError :=
  status_transitions_and_single_decision.2 exPendingState 1 1 .approve [1] none 10
    exDecidedState rfl .deny [] none 20

/-- One call to `AccessGate.authorize`. -/
structure AuthCall where
  actor : Actor
  did : Nat
  action : AccessType
  erid : Option Nat
  now : Nat

/-- Run a sequence of `authorize` calls, threading the state. -/
def runAuthCalls (st : WorkflowState) (calls : List AuthCall) : WorkflowState :=
  calls.foldl (fun s c => (authorize s c.actor c.did c.action c.erid c.now).2) st

/-- A list keeps a witness of a satisfied predicate under `filter`. -/
lemma filter_ne_nil_of_mem {α : Type} (l : List α) (p : α → Bool) (a : α)
    (ha : a ∈ l) (hpa : p a = true) : l.filter p ≠ [] := by
  intro hnil
  have hm : a ∈ l.filter p := List.mem_filter.mpr ⟨ha, hpa⟩
  rw [hnil] at hm
  cases hm

/-- A nonempty `filter` yields a member satisfying the predicate. -/
lemma exists_pred_of_filter_ne_nil {α : Type} (l : List α) (p : α → Bool)
    (h : l.filter p ≠ []) : ∃ a ∈ l, p a = true := by
  obtain ⟨a, ha⟩ := List.exists_mem_of_ne_nil _ h
  rw [List.mem_filter] at ha
  exact ⟨a, ha.1, ha.2⟩

/-- No request ever reaches `approved` with zero `emergency_access_documents`
rows. -/
def approvedHasGrant (st : WorkflowState) : Prop :=
  ∀ r ∈ st.requests, r.status = Status.approved →
    st.granted_documents.filter (fun e => e.emergency_request_id == r.id) ≠ []

/-- The structural invariant of the persisted state: request ids are distinct,
bounded by the AUTOINCREMENT counter, and every approved request has at least
one granted document row. -/
def Inv (st : WorkflowState) : Prop :=
  (st.requests.map (fun r => r.id)).Nodup ∧
  (∀ r ∈ st.requests, r.id < st.nextRequestId) ∧
  approvedHasGrant st

/-- `authorize` leaves the request table and counter alone and rewrites the
granted-document rows with a function preserving their request reference. -/
lemma authorize_state_spec (st : WorkflowState) (actor : Actor) (did : Nat)
    (action : AccessType) (erid : Option Nat) (now : Nat) :
    ∃ g : EmergencyAccessDocument → EmergencyAccessDocument,
      (∀ e, (g e).emergency_request_id = e.emergency_request_id) ∧
      (authorize st actor did action erid now).2.requests = st.requests ∧
      (authorize st actor did action erid now).2.nextRequestId = st.nextRequestId ∧
      (authorize st actor did action erid now).2.granted_documents =
        st.granted_documents.map g := by
  unfold authorize
  cases hd : findDocument st did with
  | none => exact ⟨id, fun e => rfl, by simp [appendLog], by simp [appendLog],
      by simp [appendLog]⟩
  | some doc =>
    dsimp only
    by_cases h1 : doc.is_active = false
    · exact ⟨id, fun e => rfl, by simp [h1, appendLog], by simp [h1, appendLog],
        by simp [h1, appendLog]⟩
    · rw [if_neg h1]
      by_cases h2 : actor.userId = some doc.user_id
      · exact ⟨id, fun e => rfl, by simp [h2, appendLog], by simp [h2, appendLog],
          by simp [h2, appendLog]⟩
      · rw [if_neg h2]
        by_cases h3 : shareExists st actor did action
        · exact ⟨id, fun e => rfl, by simp [h3, appendLog], by simp [h3, appendLog],
            by simp [h3, appendLog]⟩
        · simp only [h3, Bool.false_eq_true, if_false]
          cases erid with
          | none => exact ⟨id, fun e => rfl, by simp [appendLog], by simp [appendLog],
              by simp [appendLog]⟩
          | some rid =>
            by_cases h4 : checkAccess st rid did now = .granted
            · refine ⟨fun e =>
                if e.emergency_request_id == rid && e.document_id == did &&
                    e.accessed_at.isNone then
                  { e with accessed_at := some now }
                else e, fun e => ?_, by simp [h4, appendLog, markAccessed],
                by simp [h4, appendLog, markAccessed],
                by simp [h4, appendLog, markAccessed]⟩
              dsimp only
              split
              · rfl
              · rfl
            · exact ⟨id, fun e => rfl, by simp [h4, appendLog], by simp [h4, appendLog],
                by simp [h4, appendLog]⟩

/-- The invariant survives a successful decision. -/
lemma inv_decideRequest (st : WorkflowState) (rid deciderId : Nat) (d : Decision)
    (docIds : List Nat) (reason : Option String) (now : Nat) (st2 : WorkflowState)
    (hInv : Inv st) (h : decideRequest st rid deciderId d docIds reason now = .ok st2) :
    Inv st2 := by
  obtain ⟨hN, hB, hA⟩ := hInv
  unfold decideRequest at h
  cases hf : findRequest st rid with
  | none => rw [hf] at h; cases h
  | some r =>
    rw [hf] at h
    dsimp only at h
    by_cases h1 : deciderId ≠ r.user_id
    · rw [if_pos h1] at h; cases h
    · rw [if_neg h1] at h
      by_cases h2 : r.status ≠ Status.pending
      · rw [if_pos h2] at h; cases h
      · rw [if_neg h2] at h
        by_cases h3 : r.expires_at ≤ now
        · rw [if_pos h3] at h; cases h
        · rw [if_neg h3] at h
          cases d with
          | deny =>
            injection h with h4
            rw [← h4]
            refine ⟨?_, ?_, ?_⟩
            · rw [ids_map_decidedUpdate rid (denyUpdate reason) (fun q => rfl)]
              exact hN
            · intro q2 hq2
              rw [List.mem_map] at hq2
              obtain ⟨q, hq, hqe⟩ := hq2
              rw [← hqe, decidedUpdate_id rid (denyUpdate reason) (fun q => rfl) q]
              exact hB q hq
            · intro q2 hq2 hq2s
              rw [List.mem_map] at hq2
              obtain ⟨q, hq, hqe⟩ := hq2
              have hid : q2.id = q.id := by
                rw [← hqe]
                exact decidedUpdate_id rid (denyUpdate reason) (fun q => rfl) q
              have hqs : q.status = Status.approved := by
                rw [← hqe] at hq2s
                unfold decidedUpdate at hq2s
                by_cases hg : (q.id == rid && q.status == Status.pending) = true
                · rw [if_pos hg] at hq2s
                  cases hq2s
                · rw [if_neg hg] at hq2s
                  exact hq2s
              have := hA q hq hqs
              obtain ⟨e, he, hpe⟩ := exists_pred_of_filter_ne_nil _ _ this
              refine filter_ne_nil_of_mem _ _ e he ?_
              rw [hid]
              exact hpe
          | approve =>
            by_cases h4 : docIds = []
            · rw [if_pos h4] at h; cases h
            · rw [if_neg h4] at h
              by_cases h5 : ¬ docIds.all (fun did =>
                  st.documents.any (fun doc => doc.id == did && doc.user_id == r.user_id))
              · rw [if_pos h5] at h; cases h
              · rw [if_neg h5] at h
                by_cases h6 : ¬ st.contacts.any (fun c =>
                    c.id == r.trusted_contact_id && c.emergency_contact)
                · rw [if_pos h6] at h; cases h
                · rw [if_neg h6] at h
                  injection h with h7
                  rw [← h7]
                  have hrid : r.id = rid := by
                    have hr := List.find?_some (by unfold findRequest at hf; exact hf)
                    exact eq_of_beq hr
                  refine ⟨?_, ?_, ?_⟩
                  · rw [ids_map_decidedUpdate rid (approveUpdate now) (fun q => rfl)]
                    exact hN
                  · intro q2 hq2
                    rw [List.mem_map] at hq2
                    obtain ⟨q, hq, hqe⟩ := hq2
                    rw [← hqe, decidedUpdate_id rid (approveUpdate now) (fun q => rfl) q]
                    exact hB q hq
                  · intro q2 hq2 hq2s
                    rw [List.mem_map] at hq2
                    obtain ⟨q, hq, hqe⟩ := hq2
                    have hid : q2.id = q.id := by
                      rw [← hqe]
                      exact decidedUpdate_id rid (approveUpdate now) (fun q => rfl) q
                    obtain ⟨x, xs, hxs⟩ := List.exists_cons_of_ne_nil h4
                    by_cases hg : (q.id == rid && q.status == Status.pending) = true
                    · have hq2id : q2.id = rid := by
                        rw [hid]
                        rw [Bool.and_eq_true] at hg
                        exact eq_of_beq hg.1
                      refine filter_ne_nil_of_mem _ _
                        ((fun p : Nat × Nat =>
                          ({ id := st.nextGrantId + p.1, emergency_request_id := rid,
                             document_id := p.2, granted_access_type := AccessType.view,
                             accessed_at := none } : EmergencyAccessDocument)) (0, x)) ?_ ?_
                      · rw [List.mem_append]
                        right
                        rw [hxs]
                        refine List.mem_map_of_mem _ ?_
                        rw [List.enum_cons]
                        exact List.mem_cons_self _ _
                      · dsimp only
                        rw [hq2id]
                        exact beq_self_eq_true rid
                    · have hqq : q2 = q := by
                        rw [← hqe]
                        unfold decidedUpdate
                        rw [if_neg hg]
                      have := hA q hq (hqq ▸ hq2s)
                      obtain ⟨e, he, hpe⟩ := exists_pred_of_filter_ne_nil _ _ this
                      refine filter_ne_nil_of_mem _ _ e (List.mem_append_left _ he) ?_
                      rw [hid]
                      exact hpe

/-- The invariant survives cascade deletion of a trusted contact. -/
lemma inv_deleteTrustedContact (st : WorkflowState) (cid : Nat) (hInv : Inv st) :
    Inv (deleteTrustedContact st cid) := by
  obtain ⟨hN, hB, hA⟩ := hInv
  refine ⟨?_, ?_, ?_⟩
  · exact hN.sublist (List.Sublist.map _ (List.filter_sublist st.requests))
  · intro r hr
    rw [show (deleteTrustedContact st cid).requests =
      st.requests.filter (fun r => !(r.trusted_contact_id == cid)) from rfl] at hr
    rw [List.mem_filter] at hr
    exact hB r hr.1
  · intro r hr hrs
    have hr2 := hr
    rw [show (deleteTrustedContact st cid).requests =
      st.requests.filter (fun r => !(r.trusted_contact_id == cid)) from rfl] at hr2
    rw [List.mem_filter] at hr2
    obtain ⟨hrm, hrkeep⟩ := hr2
    have := hA r hrm hrs
    obtain ⟨e, he, hpe⟩ := exists_pred_of_filter_ne_nil _ _ this
    have hdead : (deadRequestIds st cid).contains e.emergency_request_id = false := by
      by_contra hcon
      rw [Bool.not_eq_false] at hcon
      unfold deadRequestIds at hcon
      rw [List.elem_iff] at hcon
      rw [List.mem_map] at hcon
      obtain ⟨r2, hr2m, hr2id⟩ := hcon
      rw [List.mem_filter] at hr2m
      have heid : e.emergency_request_id = r.id := eq_of_beq hpe
      have hsame : r2 = r := List.inj_on_of_nodup_map hN hr2m.1 hrm (by
        rw [hr2id, heid])
      rw [hsame] at hr2m
      rw [hr2m.2] at hrkeep
      cases hrkeep
    refine filter_ne_nil_of_mem _ _ e ?_ hpe
    rw [show (deleteTrustedContact st cid).granted_documents =
      st.granted_documents.filter (fun e2 =>
        !((deadRequestIds st cid).contains e2.emergency_request_id)) from rfl]
    rw [List.mem_filter]
    exact ⟨he, by rw [hdead]; rfl⟩

/-- The invariant holds in every reachable state. -/
lemma inv_reachable (st : WorkflowState) (h : Reachable st) : Inv st := by
  obtain ⟨ops, hops⟩ := h
  rw [← hops]
  suffices hstep : ∀ (ops2 : List Op) (st0 : WorkflowState),
      Inv st0 → Inv (ops2.foldl applyOp st0) by
    refine hstep ops initState ⟨List.nodup_nil, ?_, ?_⟩
    · intro r hr; cases hr
    · intro r hr; cases hr
  intro ops2
  induction ops2 with
  | nil => intro st0 h0; exact h0
  | cons op rest ih =>
    intro st0 h0
    refine ih (applyOp st0 op) ?_
    obtain ⟨hN, hB, hA⟩ := h0
    cases op with
    | addContact c => exact ⟨hN, hB, hA⟩
    | addDocument d => exact ⟨hN, hB, hA⟩
    | addShare s => exact ⟨hN, hB, hA⟩
    | createOp ownerId contactId rn re reason etype ttl now =>
      simp only [applyOp, createRequest]
      by_cases h : st0.contacts.any (fun c => c.id == contactId && c.user_id == ownerId)
      · rw [if_pos h]
        dsimp only
        refine ⟨?_, ?_, ?_⟩
        · rw [List.map_append]
          rw [List.nodup_append]
          refine ⟨hN, List.nodup_singleton _, ?_⟩
          intro a ha hb
          rw [List.mem_map] at ha
          obtain ⟨q, hq, hqe⟩ := ha
          simp only [List.map_cons, List.map_nil, List.mem_singleton] at hb
          have := hB q hq
          omega
        · intro r hr
          dsimp only at hr ⊢
          rw [List.mem_append] at hr
          rcases hr with hr | hr
          · have := hB r hr; omega
          · rw [List.mem_singleton] at hr
            rw [hr]
            exact Nat.lt_succ_self _
        · intro r hr hrs
          dsimp only at hr ⊢
          rw [List.mem_append] at hr
          rcases hr with hr | hr
          · exact hA r hr hrs
          · rw [List.mem_singleton] at hr
            rw [hr] at hrs
            cases hrs
      · rw [if_neg h]
        exact ⟨hN, hB, hA⟩
    | decideOp rid deciderId d docIds reason now =>
      simp only [applyOp]
      cases hdec : decideRequest st0 rid deciderId d docIds reason now with
      | error e => exact ⟨hN, hB, hA⟩
      | ok stB =>
        dsimp only
        exact inv_decideRequest st0 rid deciderId d docIds reason now stB ⟨hN, hB, hA⟩ hdec
    | authorizeOp actor did action erid now =>
      simp only [applyOp]
      obtain ⟨g, hg, hreq, hnext, hgd⟩ := authorize_state_spec st0 actor did action erid now
      refine ⟨?_, ?_, ?_⟩
      · rw [hreq]; exact hN
      · intro r hr
        rw [hreq] at hr
        rw [hnext]
        exact hB r hr
      · intro r hr hrs
        rw [hreq] at hr
        have := hA r hr hrs
        obtain ⟨e, he, hpe⟩ := exists_pred_of_filter_ne_nil _ _ this
        refine filter_ne_nil_of_mem _ _ (g e) ?_ ?_
        · rw [hgd]
          exact List.mem_map_of_mem _ he
        · rw [hg e]
          exact hpe
    | deleteContact cid =>
      exact inv_deleteTrustedContact st0 cid ⟨hN, hB, hA⟩

/-- C4: approving with an empty `grantedDocumentIds` list fails with
`ValidationError` (for an existing, owner-decided, still-pending, unexpired
request, so that no earlier check masks the validation), and in every
reachable state an `approved` request has a non-empty list of
`emergency_access_documents` rows. -/
theorem approve_empty_validation_and_approved_nonempty :
    (∀ st rid deciderId reason now r, findRequest st rid = some r →
      deciderId = r.user_id → r.status = Status.pending → now < r.expires_at →
      decideRequest st rid deciderId .approve [] reason now =
        .error .validationError) ∧
    (∀ st, Reachable st → approvedHasGrant st) := by
  constructor
  · intro st rid deciderId reason now r hf hdec hpend hlt
    unfold decideRequest
    rw [hf]
    dsimp only
    rw [if_neg (show ¬ deciderId ≠ r.user_id from fun hne => hne hdec)]
    rw [if_neg (show ¬ r.status ≠ Status.pending from fun hne => hne hpend)]
    rw [if_neg (Nat.not_le.mpr hlt)]
    rw [if_pos rfl]
  · intro st h
    exact (inv_reachable st h).2.2

/-- Witness for C4: the concrete pending request rejects an empty grant list
with `ValidationError`. -/
theorem approve_empty_validation_witness :
    decideRequest exPendingState 1 1 .approve [] none 10 = .error .validationError :=
  approve_empty_validation_and_approved_nonempty.1 exPendingState 1 1 none 10
    { id := 1, user_id := 1, trusted_contact_id := 1,
      requested_by_email := "c@x", requested_by_name := "c",
      request_reason := "medical", emergency_type := some .medical,
      requested_at := 0, status := .pending, approved_at := none,
      expires_at := 100, denial_reason := none }
    (by decide) rfl rfl (by decide)

/-- C5: deleting a trusted contact cascade-deletes exactly the emergency
access requests referencing it (whatever their status), while every
`access_logs` row survives: the table keeps its length, each old row is still
present either unchanged or with its `emergency_request_id` reference nulled,
and a row recording a past emergency access through one of the deleted
contact's requests is retained with that reference set to null — embedding
the schema's `ON DELETE CASCADE` and `ON DELETE SET NULL` clauses. -/
theorem delete_contact_cascades_requests_preserves_logs (st : WorkflowState) (cid : Nat) :
    (∀ r ∈ (deleteTrustedContact st cid).requests, r.trusted_contact_id ≠ cid) ∧
    (∀ r ∈ st.requests, r.trusted_contact_id ≠ cid →
      r ∈ (deleteTrustedContact st cid).requests) ∧
    (∀ r ∈ st.requests, r.trusted_contact_id = cid →
      r ∉ (deleteTrustedContact st cid).requests) ∧
    ((deleteTrustedContact st cid).access_logs.length = st.access_logs.length) ∧
    (∀ L ∈ st.access_logs,
      L ∈ (deleteTrustedContact st cid).access_logs ∨
      { L with emergency_request_id := none } ∈
        (deleteTrustedContact st cid).access_logs) ∧
    (∀ L ∈ st.access_logs, ∀ rid, L.emergency_request_id = some rid →
      (∃ r ∈ st.requests, r.id = rid ∧ r.trusted_contact_id = cid) →
      { L with emergency_request_id := none } ∈
        (deleteTrustedContact st cid).access_logs) := by
  refine ⟨?_, ?_, ?_, ?_, ?_, ?_⟩
  · intro r hr
    rw [show (deleteTrustedContact st cid).requests =
      st.requests.filter (fun r => !(r.trusted_contact_id == cid)) from rfl] at hr
    rw [List.mem_filter] at hr
    intro hc
    rw [hc] at hr
    simp at hr
  · intro r hr hne
    rw [show (deleteTrustedContact st cid).requests =
      st.requests.filter (fun r => !(r.trusted_contact_id == cid)) from rfl]
    rw [List.mem_filter]
    exact ⟨hr, by simp [hne]⟩
  · intro r hr heq hmem
    rw [show (deleteTrustedContact st cid).requests =
      st.requests.filter (fun r => !(r.trusted_contact_id == cid)) from rfl] at hmem
    rw [List.mem_filter] at hmem
    rw [heq] at hmem
    simp at hmem
  · exact List.length_map _ _
  · intro L hL
    have hmem := List.mem_map_of_mem (nullifyDeadRef (deadRequestIds st cid)) hL
    cases hE : L.emergency_request_id with
    | none =>
      left
      rw [show nullifyDeadRef (deadRequestIds st cid) L = L from by
        unfold nullifyDeadRef; rw [hE]] at hmem
      exact hmem
    | some rid =>
      by_cases hc : (deadRequestIds st cid).contains rid
      · right
        rw [show nullifyDeadRef (deadRequestIds st cid) L =
          { L with emergency_request_id := none } from by
            unfold nullifyDeadRef; rw [hE]; dsimp only; rw [if_pos hc]] at hmem
        exact hmem
      · left
        rw [show nullifyDeadRef (deadRequestIds st cid) L = L from by
          unfold nullifyDeadRef; rw [hE]; dsimp only; rw [if_neg hc]] at hmem
        exact hmem
  · intro L hL rid hE hdead
    obtain ⟨r, hr, hid, hcid⟩ := hdead
    have hc : (deadRequestIds st cid).contains rid = true := by
      unfold deadRequestIds
      rw [List.elem_iff]
      rw [List.mem_map]
      exact ⟨r, List.mem_filter.mpr ⟨hr, by rw [hcid]; exact beq_self_eq_true cid⟩, hid⟩
    have hmem := List.mem_map_of_mem (nullifyDeadRef (deadRequestIds st cid)) hL
    rw [show nullifyDeadRef (deadRequestIds st cid) L =
      { L with emergency_request_id := none } from by
        unfold nullifyDeadRef; rw [hE]; dsimp only; rw [if_pos hc]] at hmem
    exact hmem

/-- A concrete state exercising the cascade: one request of contact 1 and one
log row referencing that request. -/
def exDeleteState : WorkflowState :=
  { exCheckState with
    access_logs := [{ id := 1, user_id := some 1, accessed_by_user_id := none,
                      accessed_by_email := some "c@x", accessed_by_name := some "c",
                      document_id := some 1, action := .emergency_accessed,
                      access_context := some .emergency,
                      emergency_request_id := some 1 }],
    nextLogId := 2 }

/-- Witness for C5: deleting contact 1 keeps the audit row of its request,
with the request reference nulled. -/
theorem delete_contact_cascades_witness :
    ({ id := 1, user_id := some 1, accessed_by_user_id := none,
       accessed_by_email := some "c@x", accessed_by_name := some "c",
       document_id := some 1, action := .emergency_accessed,
       access_context := some .emergency,
       emergency_request_id := none } : AccessLog) ∈
      (deleteTrustedContact exDeleteState 1).access_logs :=
  (delete_contact_cascades_requests_preserves_logs exDeleteState 1).2.2.2.2.2
    { id := 1, user_id := some 1, accessed_by_user_id := none,
      accessed_by_email := some "c@x", accessed_by_name := some "c",
      document_id := some 1, action := .emergency_accessed,
      access_context := some .emergency, emergency_request_id := some 1 }
    (by decide) 1 rfl
    ⟨{ id := 1, user_id := 1, trusted_contact_id := 1,
       requested_by_email := "c@x", requested_by_name := "c",
       request_reason := "medical", emergency_type := some .medical,
       requested_at := 0, status := .approved, approved_at := some 1,
       expires_at := 100, denial_reason := none }, by decide, rfl, rfl⟩

/-- C6: `EmergencyAccessDocument.accessed_at` is sticky — a row that already
carries a first-access timestamp passes through any `authorize` call
unchanged; a call that is not an emergency grant changes no granted-document
row at all; and a granted emergency access stamps `accessed_at := now` on the
grant's unstamped row for that document. -/
theorem accessed_at_first_access_sticky (st : WorkflowState) (actor : Actor)
    (did : Nat) (action : AccessType) (erid : Option Nat) (now : Nat) :
    (∀ e ∈ st.granted_documents, ∀ t, e.accessed_at = some t →
      e ∈ (authorize st actor did action erid now).2.granted_documents) ∧
    ((authorize st actor did action erid now).1 ≠ .granted .emergency →
      (authorize st actor did action erid now).2.granted_documents =
        st.granted_documents) ∧
    (∀ rid, erid = some rid →
      (authorize st actor did action erid now).1 = .granted .emergency →
      ∀ e ∈ st.granted_documents, e.emergency_request_id = rid →
      e.document_id = did → e.accessed_at = none →
      { e with accessed_at := some now } ∈
        (authorize st actor did action erid now).2.granted_documents) := by
  unfold authorize
  cases hd : findDocument st did with
  | none =>
    refine ⟨?_, ?_, ?_⟩
    · intro e he t ht
      simpa [appendLog] using he
    · intro h
      simp [appendLog]
    · intro rid hrid hres
      cases hres
  | some doc =>
    dsimp only
    by_cases h1 : doc.is_active = false
    · rw [if_pos h1]
      refine ⟨?_, ?_, ?_⟩
      · intro e he t ht
        simpa [appendLog] using he
      · intro h
        simp [appendLog]
      · intro rid hrid hres
        cases hres
    · rw [if_neg h1]
      by_cases h2 : actor.userId = some doc.user_id
      · rw [if_pos h2]
        refine ⟨?_, ?_, ?_⟩
        · intro e he t ht
          simpa [appendLog] using he
        · intro h
          simp [appendLog]
        · intro rid hrid hres
          cases hres
      · rw [if_neg h2]
        by_cases h3 : shareExists st actor did action
        · rw [if_pos h3]
          refine ⟨?_, ?_, ?_⟩
          · intro e he t ht
            simpa [appendLog] using he
          · intro h
            simp [appendLog]
          · intro rid hrid hres
            cases hres
        · simp only [h3, Bool.false_eq_true, if_false]
          cases erid with
          | none =>
            refine ⟨?_, ?_, ?_⟩
            · intro e he t ht
              simpa [appendLog] using he
            · intro h
              simp [appendLog]
            · intro rid hrid hres
              cases hrid
          | some rid0 =>
            dsimp only
            by_cases h4 : checkAccess st rid0 did now = .granted
            · rw [if_pos h4]
              refine ⟨?_, ?_, ?_⟩
              · intro e he t ht
                simp only [appendLog, markAccessed]
                refine List.mem_map.mpr ⟨e, he, ?_⟩
                rw [ht]
                simp
              · intro h
                exact absurd rfl h
              · intro rid hrid hres e he hrid2 hdid2 hnone
                simp only [appendLog, markAccessed]
                refine List.mem_map.mpr ⟨e, he, ?_⟩
                injection hrid with hrid
                rw [if_pos]
                rw [Bool.and_eq_true, Bool.and_eq_true]
                refine ⟨⟨?_, ?_⟩, ?_⟩
                · rw [hrid2, hrid]
                  exact beq_self_eq_true rid
                · rw [hdid2]
                  exact beq_self_eq_true did
                · rw [hnone]
                  rfl
            · rw [if_neg h4]
              refine ⟨?_, ?_, ?_⟩
              · intro e he t ht
                simpa [appendLog] using he
              · intro h
                simp [appendLog]
              · intro rid hrid hres
                cases hres

/-- Witness for C6: on the concrete state, the granted emergency access at
instant 50 stamps the unstamped grant row with `accessed_at = 50`. -/
theorem accessed_at_first_access_witness :
    ({ id := 1, emergency_request_id := 1, document_id := 1,
       granted_access_type := .view, accessed_at := some 50 } :
        EmergencyAccessDocument) ∈
      (authorize exCheckState
        { userId := none, contactId := none, email := some "c@x", name := some "c" }
        1 .view (some 1) 50).2.granted_documents :=
  (accessed_at_first_access_sticky exCheckState
    { userId := none, contactId := none, email := some "c@x", name := some "c" }
    1 .view (some 1) 50).2.2 1 rfl (by decide)
    { id := 1, emergency_request_id := 1, document_id := 1,
      granted_access_type := .view, accessed_at := none }
    (by decide) rfl rfl rfl

/-- C3: a sequence of N `AccessGate.authorize` calls, whatever their outcomes,
appends exactly N rows to `access_logs` — one per call. -/
theorem authorize_appends_one_log_per_call (st : WorkflowState) (calls : List AuthCall) :
    (runAuthCalls st calls).access_logs.length =
      st.access_logs.length + calls.length := by
  induction calls generalizing st with
  | nil => rfl
  | cons c cs ih =>
    have hstep : runAuthCalls st (c :: cs) =
        runAuthCalls (authorize st c.actor c.did c.action c.erid c.now).2 cs := rfl
    rw [hstep, ih, authorize_logs_length]
    simp [Nat.add_comm, Nat.add_assoc, Nat.add_left_comm]

end AerialNest

namespace AerialNest.Api

/-! Embedding of the implemented HTTP layer of `src/api/src/index.js`:
`verifyToken`, the route dispatch of `routeRequest`, the handlers, and the two
entry points (the request callback of `startLocalServer` and `lambdaHandler`).
`jwt.verify` is modelled by an oracle `String → Option TokenPayload`
(returning `none` where the library throws), `jwt.sign` by the signed payload
itself, `bcrypt.hash` and `bcrypt.compare` by function parameters.  SQLite
storage failures (the `err` branches of the callbacks) are not modelled; the
joined `category_name` column of the documents query and the column subsets
of the SELECTs are elided. -/

/-- Row of the `users` table read and written by the handlers. -/
structure UserRow where
  id : Nat
  email : String
  password_hash : String
  first_name : String
  last_name : String
  email_verified : Nat
deriving DecidableEq, Repr

/-- Row of the `documents` table as listed by `handleGetDocuments`. -/
structure DocRow where
  id : Nat
  user_id : Nat
  category_id : Option Nat
  title : String
  upload_date : Nat
  is_active : Nat
deriving DecidableEq, Repr

/-- Row of the `trusted_contacts` table. -/
structure ContactRow where
  id : Nat
  user_id : Nat
  contact_name : String
  contact_email : String
deriving DecidableEq, Repr

/-- Row of the `document_categories` table. -/
structure CategoryRow where
  id : Nat
  name : String
  display_order : Nat
deriving DecidableEq, Repr

/-- The development database the handlers read and write; `nextUserId` models
the AUTOINCREMENT counter behind `this.lastID`. -/
structure Database where
  users : List UserRow
  documents : List DocRow
  contacts : List ContactRow
  categories : List CategoryRow
  nextUserId : Nat
deriving DecidableEq, Repr

/-- The payload embedded in a token by `jwt.sign` in the source. -/
structure TokenPayload where
  userId : Nat
  email : String
deriving DecidableEq, Repr

/-- `verifyToken(authHeader)` from the source: `null` when the header is
absent or does not start with `Bearer `, otherwise `jwt.verify` (the oracle)
on the second space-separated chunk of the header, with a thrown verification
error returned as `null`. -/
def verifyToken (oracle : String → Option TokenPayload) (authHeader : Option String) :
    Option TokenPayload :=
  match authHeader with
  | none => none
  | some s =>
    if s.startsWith "Bearer " then
      match (s.splitOn " ").get? 1 with
      | some t => oracle t
      | none => none
    else none

/-- The JSON response bodies the handlers emit. -/
inductive ResBody
  | apiRoot (timestamp : Nat)
  | health (dbConnected : Bool) (timestamp uptime : Nat)
  | categories (cats : List CategoryRow)
  | errorMsg (msg : String)
  | serverError (msg : String)
  | registered (msg : String) (token : TokenPayload) (userId : Nat)
      (email firstName lastName : String)
  | loggedIn (msg : String) (token : TokenPayload) (userId : Nat)
      (email firstName lastName : String)
  | profile (u : UserRow)
  | documents (docs : List DocRow)
  | contacts (cs : List ContactRow)
  | notFound (path : String)
  | empty
deriving DecidableEq, Repr

/-- An HTTP response: status code and JSON body. -/
structure HttpResponse where
  status : Nat
  body : ResBody
deriving DecidableEq, Repr

/-- Whether a handler writes its response synchronously (before the handler
returns to the router) or later, inside a database callback. -/
inductive Phase
  | sync
  | late
deriving DecidableEq, Repr

/-- The `ORDER BY d.upload_date DESC` of the documents query. -/
def sortByUploadDateDesc (l : List DocRow) : List DocRow :=
  l.mergeSort (fun a b => b.upload_date ≤ a.upload_date)

/-- The `ORDER BY display_order` of the categories query. -/
def sortByDisplayOrder (l : List CategoryRow) : List CategoryRow :=
  l.mergeSort (fun a b => a.display_order ≤ b.display_order)

/-- The `ORDER BY contact_name` of the trusted-contacts query. -/
def sortByContactName (l : List ContactRow) : List ContactRow :=
  l.mergeSort (fun a b => !(b.contact_name < a.contact_name))

/-- The success path of `handleGetCategories`. -/
def handleGetCategories (db : Database) : HttpResponse :=
  { status := 200, body := .categories (sortByDisplayOrder db.categories) }

/-- `handleGetDocuments`: the rows of `documents` with the caller's
`user_id` and `is_active = 1`, ordered by upload date descending. -/
def handleGetDocuments (db : Database) (uid : Nat) : HttpResponse :=
  { status := 200,
    body := .documents (sortByUploadDateDesc
      (db.documents.filter (fun d => d.user_id == uid && d.is_active == 1))) }

/-- `handleGetProfile`: the caller's user row, or 404. -/
def handleGetProfile (db : Database) (uid : Nat) : HttpResponse :=
  match db.users.find? (fun u => u.id == uid) with
  | none => { status := 404, body := .errorMsg "User not found" }
  | some u => { status := 200, body := .profile u }

/-- `handleGetTrustedContacts`: the caller's contacts ordered by name. -/
def handleGetTrustedContacts (db : Database) (uid : Nat) : HttpResponse :=
  { status := 200,
    body := .contacts (sortByContactName
      (db.contacts.filter (fun c => c.user_id == uid))) }

/-- The JSON body of a registration or login request; a missing field is
`none`, and the falsiness test of the source also rejects the empty
string. -/
structure RegisterBody where
  email : Option String
  password : Option String
  firstName : Option String
  lastName : Option String
deriving DecidableEq, Repr

/-- `handleRegister` from the source: 400 when a field is missing or empty,
500 without a database, 400 `User already exists` when the email is taken
(found by the asynchronous SELECT, with no INSERT issued), otherwise the
INSERT appends a row whose id is `this.lastID` and the 201 response carries a
token signed for exactly that id.  The phase records that the field and
database checks respond synchronously while the SELECT and INSERT respond
from callbacks. -/
def handleRegister (bh : String → String) (db? : Option Database)
    (body : RegisterBody) : (Phase × HttpResponse) × Option Database :=
  match body.email, body.password, body.firstName, body.lastName with
  | some email, some password, some firstName, some lastName =>
    if email = "" ∨ password = "" ∨ firstName = "" ∨ lastName = "" then
      ((.sync, { status := 400, body := .errorMsg "All fields are required" }), db?)
    else
      match db? with
      | none =>
        ((.sync, { status := 500, body := .errorMsg "Database not available" }), none)
      | some db =>
        if db.users.any (fun u => u.email == email) then
          ((.late, { status := 400, body := .errorMsg "User already exists" }), some db)
        else
          ((.late, { status := 201,
                     body := .registered "User created successfully"
                       { userId := db.nextUserId, email := email }
                       db.nextUserId email firstName lastName }),
           some { db with
             users := db.users ++
               [{ id := db.nextUserId, email := email, password_hash := bh password,
                  first_name := firstName, last_name := lastName,
                  email_verified := 0 }],
             nextUserId := db.nextUserId + 1 })
  | _, _, _, _ =>
    ((.sync, { status := 400, body := .errorMsg "All fields are required" }), db?)

/-- `handleLogin` from the source; `cmp` models `bcrypt.compare`. -/
def handleLogin (cmp : String → String → Bool) (db? : Option Database)
    (body : RegisterBody) : Phase × HttpResponse :=
  match body.email, body.password with
  | some email, some password =>
    if email = "" ∨ password = "" then
      (.sync, { status := 400, body := .errorMsg "Email and password are required" })
    else
      match db? with
      | none => (.sync, { status := 500, body := .errorMsg "Database not available" })
      | some db =>
        match db.users.find? (fun u => u.email == email) with
        | none => (.late, { status := 401, body := .errorMsg "Invalid credentials" })
        | some user =>
          if cmp password user.password_hash then
            (.late, { status := 200,
                      body := .loggedIn "Login successful"
                        { userId := user.id, email := user.email }
                        user.id user.email user.first_name user.last_name })
          else (.late, { status := 401, body := .errorMsg "Invalid credentials" })
  | _, _ =>
    (.sync, { status := 400, body := .errorMsg "Email and password are required" })

/-- A request as both adapters receive it from the outside: method, path,
authorization header, and body (`none` models bytes that are not valid
JSON). -/
structure WireRequest where
  method : String
  path : String
  authorization : Option String
  body : Option RegisterBody
deriving DecidableEq, Repr

/-- The request object handed to `routeRequest`: the local server passes the
live Node request (a readable stream), the Lambda adapter a plain
`{ method, headers, body }` literal with no stream interface — `streamable`
records the difference. -/
structure ModelRequest where
  method : String
  path : String
  authorization : Option String
  body : Option RegisterBody
  streamable : Bool
deriving DecidableEq, Repr

/-- `parseRequestBody(req)`: reads the stream and parses JSON.  On the
Lambda mock request the stream subscription method is undefined, so the call
throws before any parsing; invalid JSON rejects with `Invalid JSON`. -/
def parseRequestBody (req : ModelRequest) : Except String RegisterBody :=
  if req.streamable = false then .error "req.on is not a function"
  else
    match req.body with
    | some b => .ok b
    | none => .error "Invalid JSON"

/-- Ambient process values the handlers read (the current date and the
process uptime). -/
structure Env where
  now : Nat
  uptime : Nat
deriving DecidableEq, Repr

/-- What one `routeRequest` call does: at most one of `sync` (response
written before the router returns), `late` (response written inside a later
database callback) and `threw` (the awaited promise rejected) is set;
`dbTouched` records whether any database query was issued, and `db2` is the
database after the call completes. -/
structure Outcome where
  sync : Option HttpResponse
  late : Option HttpResponse
  threw : Option String
  dbTouched : Bool
  db2 : Option Database
deriving DecidableEq, Repr

/-- `routeRequest(req, res, parsedUrl)` from the source: the shared dispatch
both entry points call, with the route order of the source. -/
def routeRequest (oracle : String → Option TokenPayload) (bh : String → String)
    (cmp : String → String → Bool) (req : ModelRequest) (db? : Option Database)
    (env : Env) : Outcome :=
  if req.path = "/" ∨ req.path = "/api" then
    { sync := some { status := 200, body := .apiRoot env.now }, late := none,
      threw := none, dbTouched := false, db2 := db? }
  else if req.path = "/api/health" then
    { sync := some { status := 200, body := .health db?.isSome env.now env.uptime },
      late := none, threw := none, dbTouched := false, db2 := db? }
  else if req.path = "/api/categories" ∧ req.method = "GET" then
    match db? with
    | none =>
      { sync := some { status := 500, body := .errorMsg "Database not available" },
        late := none, threw := none, dbTouched := false, db2 := none }
    | some db =>
      { sync := none, late := some (handleGetCategories db), threw := none,
        dbTouched := true, db2 := some db }
  else if req.path = "/api/auth/register" ∧ req.method = "POST" then
    match parseRequestBody req with
    | .error e =>
      { sync := none, late := none, threw := some e, dbTouched := false, db2 := db? }
    | .ok body =>
      match handleRegister bh db? body with
      | ((.sync, resp), db2) =>
        { sync := some resp, late := none, threw := none, dbTouched := false, db2 := db2 }
      | ((.late, resp), db2) =>
        { sync := none, late := some resp, threw := none, dbTouched := true, db2 := db2 }
  else if req.path = "/api/auth/login" ∧ req.method = "POST" then
    match parseRequestBody req with
    | .error e =>
      { sync := none, late := none, threw := some e, dbTouched := false, db2 := db? }
    | .ok body =>
      match handleLogin cmp db? body with
      | (.sync, resp) =>
        { sync := some resp, late := none, threw := none, dbTouched := false, db2 := db? }
      | (.late, resp) =>
        { sync := none, late := some resp, threw := none, dbTouched := true, db2 := db? }
  else if req.path = "/api/user/profile" ∧ req.method = "GET" then
    match verifyToken oracle req.authorization with
    | none =>
      { sync := some { status := 401, body := .errorMsg "Authorization required" },
        late := none, threw := none, dbTouched := false, db2 := db? }
    | some u =>
      match db? with
      | none =>
        { sync := some { status := 500, body := .errorMsg "Database not available" },
          late := none, threw := none, dbTouched := false, db2 := none }
      | some db =>
        { sync := none, late := some (handleGetProfile db u.userId), threw := none,
          dbTouched := true, db2 := some db }
  else if req.path = "/api/documents" ∧ req.method = "GET" then
    match verifyToken oracle req.authorization with
    | none =>
      { sync := some { status := 401, body := .errorMsg "Authorization required" },
        late := none, threw := none, dbTouched := false, db2 := db? }
    | some u =>
      match db? with
      | none =>
        { sync := some { status := 500, body := .errorMsg "Database not available" },
          late := none, threw := none, dbTouched := false, db2 := none }
      | some db =>
        { sync := none, late := some (handleGetDocuments db u.userId), threw := none,
          dbTouched := true, db2 := some db }
  else if req.path = "/api/trusted-contacts" ∧ req.method = "GET" then
    match verifyToken oracle req.authorization with
    | none =>
      { sync := some { status := 401, body := .errorMsg "Authorization required" },
        late := none, threw := none, dbTouched := false, db2 := db? }
    | some u =>
      match db? with
      | none =>
        { sync := some { status := 500, body := .errorMsg "Database not available" },
          late := none, threw := none, dbTouched := false, db2 := none }
      | some db =>
        { sync := none, late := some (handleGetTrustedContacts db u.userId),
          threw := none, dbTouched := true, db2 := some db }
  else
    { sync := some { status := 404, body := .notFound req.path }, late := none,
      threw := none, dbTouched := false, db2 := db? }

/-- The request callback of `startLocalServer`: OPTIONS preflight is answered
directly; otherwise `routeRequest` runs on the live (streamable) request and
the client receives whichever response the handler writes, sync or from its
callback; a rejected promise is caught and answered 500 with the error
message. -/
def localResponse (oracle : String → Option TokenPayload) (bh : String → String)
    (cmp : String → String → Bool) (w : WireRequest) (db? : Option Database)
    (env : Env) : HttpResponse :=
  if w.method = "OPTIONS" then { status := 200, body := .empty }
  else
    let o := routeRequest oracle bh cmp
      { method := w.method, path := w.path, authorization := w.authorization,
        body := w.body, streamable := true } db? env
    match o.threw with
    | some msg => { status := 500, body := .serverError msg }
    | none =>
      match o.sync with
      | some r => r
      | none =>
        match o.late with
        | some r => r
        | none => { status := 200, body := .empty }

/-- `lambdaHandler` from the source: OPTIONS preflight is answered directly;
otherwise `routeRequest` runs on a mock request with no stream interface and
a mock response initialised to status 200 and empty body, which is returned
as soon as the awaited `routeRequest` resolves — before any database callback
has written to it; a rejected promise is caught and answered 500 with a
generic message. -/
def lambdaResponse (oracle : String → Option TokenPayload) (bh : String → String)
    (cmp : String → String → Bool) (w : WireRequest) (db? : Option Database)
    (env : Env) : HttpResponse :=
  if w.method = "OPTIONS" then { status := 200, body := .empty }
  else
    let o := routeRequest oracle bh cmp
      { method := w.method, path := w.path, authorization := w.authorization,
        body := w.body, streamable := false } db? env
    match o.threw with
    | some _ => { status := 500, body := .serverError "An unexpected error occurred" }
    | none =>
      match o.sync with
      | some r => r
      | none => { status := 200, body := .empty }

/-- The document rows of a response body. -/
def docsOf (r : HttpResponse) : List DocRow :=
  match r.body with
  | .documents ds => ds
  | _ => []

/-- The token of a registration or login response body. -/
def tokenOf (b : ResBody) : Option TokenPayload :=
  match b with
  | .registered _ t _ _ _ _ => some t
  | .loggedIn _ t _ _ _ _ => some t
  | _ => none

end AerialNest.Api

namespace AerialNest.Api

/-- C7: `handleGetDocuments` returns exactly the caller's documents with
`is_active = 1`; a document with any other `is_active` value never appears in
its response; and in the modelled `AccessGate` an inactive document is denied
regardless of the actor, the action, and any grant or share — the two
document access paths of the system. -/
theorem get_documents_active_only :
    (∀ (db : Database) (uid : Nat) (d : DocRow),
      d ∈ docsOf (handleGetDocuments db uid) ↔
        d ∈ db.documents ∧ d.user_id = uid ∧ d.is_active = 1) ∧
    (∀ (db : Database) (uid : Nat) (d : DocRow),
      d.is_active ≠ 1 → d ∉ docsOf (handleGetDocuments db uid)) ∧
    (∀ (st : WorkflowState) (actor : Actor) (did : Nat) (action : AccessType)
      (erid : Option Nat) (now : Nat) (doc : Document),
      findDocument st did = some doc → doc.is_active = false →
      (authorize st actor did action erid now).1 = AuthResult.denied) := by
  have h1 : ∀ (db : Database) (uid : Nat) (d : DocRow),
      d ∈ docsOf (handleGetDocuments db uid) ↔
        d ∈ db.documents ∧ d.user_id = uid ∧ d.is_active = 1 := by
    intro db uid d
    unfold docsOf handleGetDocuments sortByUploadDateDesc
    dsimp only
    rw [List.mem_mergeSort, List.mem_filter]
    simp [Bool.and_eq_true]
  refine ⟨h1, ?_, ?_⟩
  · intro db uid d hne hmem
    exact hne ((h1 db uid d).mp hmem).2.2
  · intro st actor did action erid now doc hf hin
    unfold authorize
    rw [hf]
    dsimp only
    rw [if_pos hin]

/-- The concrete database of the examples: one user, one active and one
inactive document. -/
def exApiDb : Database :=
  { users := [{ id := 1, email := "a@x", password_hash := "h",
                first_name := "A", last_name := "B", email_verified := 0 }]
    documents := [{ id := 1, user_id := 1, category_id := none, title := "will",
                    upload_date := 10, is_active := 1 },
                  { id := 2, user_id := 1, category_id := none, title := "old",
                    upload_date := 5, is_active := 0 }]
    contacts := []
    categories := []
    nextUserId := 2 }

/-- Witness for C7: the inactive document of the concrete database never
appears in the listing response. -/
theorem get_documents_active_only_witness :
    ({ id := 2, user_id := 1, category_id := none, title := "old",
       upload_date := 5, is_active := 0 } : DocRow) ∉
      docsOf (handleGetDocuments exApiDb 1) :=
  get_documents_active_only.2.1 exApiDb 1
    { id := 2, user_id := 1, category_id := none, title := "old",
      upload_date := 5, is_active := 0 } (by decide)

/-- C9: `verifyToken` yields `null` (without throwing — it is a total
function) for an absent header, a header without the `Bearer ` scheme, and a
token the verifier rejects; and on the three protected routes a request whose
`verifyToken` is `null` is answered 401 `Authorization required` directly
from the router, with no database query issued and nothing thrown. -/
theorem unauthorized_requests_rejected_before_db :
    (∀ (oracle : String → Option TokenPayload),
      verifyToken oracle none = none ∧
      (∀ s : String, ¬ s.startsWith "Bearer " = true →
        verifyToken oracle (some s) = none) ∧
      (∀ s t : String, (s.splitOn " ").get? 1 = some t → oracle t = none →
        verifyToken oracle (some s) = none)) ∧
    (∀ (oracle : String → Option TokenPayload) (bh : String → String)
      (cmp : String → String → Bool) (req : ModelRequest)
      (db? : Option Database) (env : Env),
      (req.path = "/api/user/profile" ∨ req.path = "/api/documents" ∨
        req.path = "/api/trusted-contacts") →
      req.method = "GET" →
      verifyToken oracle req.authorization = none →
      (routeRequest oracle bh cmp req db? env).sync =
        some { status := 401, body := .errorMsg "Authorization required" } ∧
      (routeRequest oracle bh cmp req db? env).dbTouched = false ∧
      (routeRequest oracle bh cmp req db? env).threw = none) := by
  constructor
  · intro oracle
    refine ⟨rfl, ?_, ?_⟩
    · intro s h
      unfold verifyToken
      dsimp only
      rw [if_neg h]
    · intro s t hsplit horacle
      unfold verifyToken
      dsimp only
      by_cases hb : s.startsWith "Bearer " = true
      · rw [if_pos hb, hsplit]
        exact horacle
      · rw [if_neg hb]
  · intro oracle bh cmp req db? env hpath hm hv
    rcases hpath with hp | hp | hp <;>
      refine ⟨?_, ?_, ?_⟩ <;>
      simp [routeRequest, hp, hm, hv]

/-- Witness for C9: a concrete GET of the documents route with no
authorization header is answered 401 with no database query. -/
theorem unauthorized_requests_witness :
    (routeRequest (fun _ => none) (fun s => s) (fun _ _ => false)
      { method := "GET", path := "/api/documents", authorization := none,
        body := none, streamable := true } none { now := 0, uptime := 0 }).sync =
      some { status := 401, body := .errorMsg "Authorization required" } ∧
    (routeRequest (fun _ => none) (fun s => s) (fun _ _ => false)
      { method := "GET", path := "/api/documents", authorization := none,
        body := none, streamable := true } none { now := 0, uptime := 0 }).dbTouched =
      false :=
  have h := unauthorized_requests_rejected_before_db.2 (fun _ => none) (fun s => s)
    (fun _ _ => false)
    { method := "GET", path := "/api/documents", authorization := none,
      body := none, streamable := true } none { now := 0, uptime := 0 }
    (Or.inr (Or.inl rfl)) rfl rfl
  ⟨h.1, h.2.1⟩

/-- C10: `handleRegister` on a well-formed body whose email already belongs
to a user row answers 400 `User already exists` and returns the database
unchanged; and every 201 response comes from a call that appended exactly one
new user row, with the signed token carrying exactly that row's id. -/
theorem register_duplicate_email_no_insert :
    (∀ (bh : String → String) (db : Database) (body : RegisterBody)
      (email password firstName lastName : String),
      body.email = some email → body.password = some password →
      body.firstName = some firstName → body.lastName = some lastName →
      email ≠ "" → password ≠ "" → firstName ≠ "" → lastName ≠ "" →
      (db.users.any (fun u => u.email == email)) = true →
      handleRegister bh (some db) body =
        ((.late, { status := 400, body := .errorMsg "User already exists" }),
         some db)) ∧
    (∀ (bh : String → String) (db? : Option Database) (body : RegisterBody)
      (ph : Phase) (resp : HttpResponse) (db2 : Option Database),
      handleRegister bh db? body = ((ph, resp), db2) → resp.status = 201 →
      ∃ (db : Database) (row : UserRow), db? = some db ∧
        db2 = some { db with users := db.users ++ [row],
                             nextUserId := db.nextUserId + 1 } ∧
        row.id = db.nextUserId ∧
        tokenOf resp.body = some { userId := row.id, email := row.email }) := by
  constructor
  · intro bh db body email password firstName lastName he hp hf hl hne1 hne2 hne3 hne4 hex
    unfold handleRegister
    rw [he, hp, hf, hl]
    dsimp only
    rw [if_neg (by simp [hne1, hne2, hne3, hne4])]
    rw [if_pos hex]
  · intro bh db? body ph resp db2 h h201
    unfold handleRegister at h
    cases hbe : body.email with
    | none =>
      rw [hbe] at h
      dsimp only at h
      injection h with h1 h2
      injection h1 with hph hresp
      rw [← hresp] at h201
      cases h201
    | some email =>
      rw [hbe] at h
      cases hbp : body.password with
      | none =>
        rw [hbp] at h
        dsimp only at h
        injection h with h1 h2
        injection h1 with hph hresp
        rw [← hresp] at h201
        cases h201
      | some password =>
        rw [hbp] at h
        cases hbf : body.firstName with
        | none =>
          rw [hbf] at h
          dsimp only at h
          injection h with h1 h2
          injection h1 with hph hresp
          rw [← hresp] at h201
          cases h201
        | some firstName =>
          rw [hbf] at h
          cases hbl : body.lastName with
          | none =>
            rw [hbl] at h
            dsimp only at h
            injection h with h1 h2
            injection h1 with hph hresp
            rw [← hresp] at h201
            cases h201
          | some lastName =>
            rw [hbl] at h
            dsimp only at h
            by_cases hempty : email = "" ∨ password = "" ∨ firstName = "" ∨ lastName = ""
            · rw [if_pos hempty] at h
              injection h with h1 h2
              injection h1 with hph hresp
              rw [← hresp] at h201
              cases h201
            · rw [if_neg hempty] at h
              cases db? with
              | none =>
                dsimp only at h
                injection h with h1 h2
                injection h1 with hph hresp
                rw [← hresp] at h201
                cases h201
              | some db =>
                dsimp only at h
                by_cases hex : (db.users.any (fun u => u.email == email)) = true
                · rw [if_pos hex] at h
                  injection h with h1 h2
                  injection h1 with hph hresp
                  rw [← hresp] at h201
                  cases h201
                · rw [if_neg hex] at h
                  injection h with h1 h2
                  injection h1 with hph hresp
                  refine ⟨db,
                    { id := db.nextUserId, email := email,
                      password_hash := bh password, first_name := firstName,
                      last_name := lastName, email_verified := 0 },
                    rfl, ?_, rfl, ?_⟩
                  · rw [← h2]
                  · rw [← hresp]
                    rfl

/-- Witness for C10: registering the already-present email of the concrete
database answers 400 `User already exists` and leaves the database as it
was. -/
theorem register_duplicate_email_witness :
    handleRegister (fun s => s) (some exApiDb)
      { email := some "a@x", password := some "pw",
        firstName := some "A", lastName := some "B" } =
      ((.late, { status := 400, body := .errorMsg "User already exists" }),
       some exApiDb) :=
  register_duplicate_email_no_insert.1 (fun s => s) exApiDb
    { email := some "a@x", password := some "pw",
      firstName := some "A", lastName := some "B" }
    "a@x" "pw" "A" "B" rfl rfl rfl rfl (by decide) (by decide) (by decide)
    (by decide) (by decide)

/-- The failing input of C8: a POST to the login route whose body is the
empty JSON object. -/
def exLoginWire : WireRequest :=
  { method := "POST", path := "/api/auth/login", authorization := none,
    body := some { email := none, password := none,
                   firstName := none, lastName := none } }

/-- C8: the two entry points do NOT produce the same response on every
request: on a POST to the login route with an empty JSON body the local
server answers 400 `Email and password are required`, while the Lambda
handler's mock request has no stream interface, so `parseRequestBody` throws
and the handler answers 500 — the shared `routeRequest` core notwithstanding. -/
theorem lambda_local_divergence :
    localResponse (fun _ => none) (fun s => s) (fun _ _ => false) exLoginWire
        (some exApiDb) { now := 0, uptime := 0 } =
      { status := 400, body := .errorMsg "Email and password are required" } ∧
    lambdaResponse (fun _ => none) (fun s => s) (fun _ _ => false) exLoginWire
        (some exApiDb) { now := 0, uptime := 0 } =
      { status := 500, body := .serverError "An unexpected error occurred" } :=
  ⟨rfl, rfl⟩

end AerialNest.Api
